import Mathlib

/-!
Verification of the rating-normalization and match-rate aggregation logic of
`match-rates-script.py`, and of the averaging logic of `visualize_comparisons.py`.

The Python functions are shallowly embedded: raw rating cells are `Option String`
(`none` models Python `None`), numeric percentage parsing is modelled over `ℚ`
(exact rationals in place of IEEE doubles), and the pandas DataFrame is a list of
rows together with the list of column names present in the input file.
-/

namespace MatchRates

/-- Python `str.upper()`, restricted to the ASCII case mapping (`Char.toUpper`
maps `a`-`z` to `A`-`Z` and leaves every other character unchanged, which agrees
with Python on ASCII input). -/
def pyUpper (s : String) : String := ⟨s.data.map Char.toUpper⟩

/-- Is `pat` a prefix of `s`? Helper for the substring test. -/
def isPre : List Char → List Char → Bool
  | [], _ => true
  | _ :: _, [] => false
  | a :: as, b :: bs => a == b && isPre as bs

/-- Is `pat` a contiguous sublist of `s`? Models Python `pat in s` on strings. -/
def isSub (pat : List Char) : List Char → Bool
  | [] => pat.isEmpty
  | b :: bs => isPre pat (b :: bs) || isSub pat bs

/-- Python `pat in s` (substring containment). -/
def containsSub (pat s : String) : Bool := isSub pat.data s.data

/-- `ai_severity_map` of `standardize_severity`, in Python dict insertion order. -/
def ai_severity_map : List (String × String) :=
  [("CRITICAL (A)", "A - SHOWSTOPPER"),
   ("MAJOR (B)", "B - MAJOR"),
   ("MINOR (C)", "C - MINOR"),
   ("SAFETY", "S - SAFETY ONLY")]

/-- `user_severity_map` of `standardize_severity`, in Python dict insertion order. -/
def user_severity_map : List (String × String) :=
  [("A - SHOWSTOPPER", "A - SHOWSTOPPER"),
   ("B - MAJOR", "B - MAJOR"),
   ("C - MINOR", "C - MINOR"),
   ("S - SAFETY ONLY", "S - SAFETY ONLY")]

/-- The body of `standardize_severity` after the upper-casing step: the AI map is
scanned first, then the user map, each by substring test, first hit wins; if no
pattern occurs in `s` the (already upper-cased) value is returned verbatim. -/
def severityLookup (s : String) : String :=
  match (ai_severity_map ++ user_severity_map).find? (fun p => containsSub p.1 s) with
  | some p => p.2
  | none => s

/-- `standardize_severity`: `None` propagates, otherwise the value is upper-cased
and looked up. -/
def standardize_severity : Option String → Option String
  | none => none
  | some sev => some (severityLookup (pyUpper sev))

/-- `ai_occurrence_map` of `standardize_occurrence`. -/
def ai_occurrence_map : List (String × String) :=
  [("CERTAIN", "CERTAIN"),
   ("VERY FREQUENT", "VERY FREQUENT"),
   ("FREQUENT", "FREQUENT"),
   ("RARE", "RARE")]

/-- `user_to_ai_map` of `standardize_occurrence`, in Python dict insertion order. -/
def user_to_ai_map : List (String × String) :=
  [("ONCE", "RARE"),
   ("RARELY", "RARE"),
   ("UNDETERMINED", "RARE"),
   ("INTERMITTENT", "RARE"),
   ("LOW OCCURRENCE", "RARE"),
   ("SOMETIMES", "RARE"),
   ("25%", "FREQUENT"),
   ("50%", "FREQUENT"),
   ("75%", "FREQUENT"),
   ("ALWAYS", "CERTAIN"),
   ("FREQUENTLY", "FREQUENT")]

/-- Python `s.replace(Char.ofNat 37, empty)` specialised to removing every `%`
character, as in `occurrence.replace` of the percentage fallback. -/
def removePercent (s : String) : String := ⟨s.data.filter (fun c => c != '%')⟩

/-- Python `str.strip()`: drop leading and trailing whitespace. -/
def pyStrip (s : String) : String :=
  ⟨((s.data.dropWhile Char.isWhitespace).reverse.dropWhile Char.isWhitespace).reverse⟩

/-- Numeric value of a list of decimal digit characters. -/
def digitsVal (l : List Char) : Nat := l.foldl (fun n c => n * 10 + (c.toNat - 48)) 0

/-- Unsigned part of Python `float(s)` on a plain decimal literal: digits with an
optional single decimal point, at least one digit overall. -/
def parseUnsigned (l : List Char) : Option ℚ :=
  match l.splitOn '.' with
  | [ip] =>
      if !ip.isEmpty && ip.all Char.isDigit then some (digitsVal ip : ℚ) else none
  | [ip, fp] =>
      if (!ip.isEmpty || !fp.isEmpty) && ip.all Char.isDigit && fp.all Char.isDigit then
        some ((digitsVal ip : ℚ) + (digitsVal fp : ℚ) / (10 : ℚ) ^ fp.length)
      else none
  | _ => none

/-- Python `float(s)` on plain decimal strings: optional sign, digits, optional
fractional part; anything else (including exponent and inf/nan spellings, which
never arise from percentage ratings) yields `none`, modelling `ValueError`. -/
def pyFloat (s : String) : Option ℚ :=
  match s.data with
  | [] => none
  | '+' :: t => parseUnsigned t
  | '-' :: t => (parseUnsigned t).map Neg.neg
  | l => parseUnsigned l

/-- The body of `standardize_occurrence` after the upper-casing step: exact match
against the AI table, then the user synonym table; failing both, a value that
contains `%` has its numeric portion parsed and bucketed (`≤ 25` FREQUENT,
`≤ 75` VERY FREQUENT, else CERTAIN); an unparseable or percent-free value is
returned verbatim. -/
def occurrenceLookup (s : String) : String :=
  match (ai_occurrence_map ++ user_to_ai_map).find? (fun p => s == p.1) with
  | some p => p.2
  | none =>
      if containsSub "%" s then
        match pyFloat (pyStrip (removePercent s)) with
        | some q =>
            if q ≤ 25 then "FREQUENT"
            else if q ≤ 75 then "VERY FREQUENT"
            else "CERTAIN"
        | none => s
      else s

/-- `standardize_occurrence`: `None` propagates, otherwise the value is
upper-cased and looked up. -/
def standardize_occurrence : Option String → Option String
  | none => none
  | some occ => some (occurrenceLookup (pyUpper occ))

/-- `ai_priority_map` of `standardize_priority`, in Python dict insertion order. -/
def ai_priority_map : List (String × String) :=
  [("BLOCKER", "BLOCKER"),
   ("URGENT", "CRITICAL"),
   ("HIGH", "MAJOR"),
   ("MEDIUM", "MAJOR"),
   ("LOW", "MINOR")]

/-- `user_priority_map` of `standardize_priority`. -/
def user_priority_map : List (String × String) :=
  [("BLOCKER", "BLOCKER"),
   ("CRITICAL", "CRITICAL"),
   ("MAJOR", "MAJOR"),
   ("MINOR", "MINOR")]

/-- The body of `standardize_priority` after the upper-casing step: exact match
against the AI table, then the user table; otherwise verbatim. -/
def priorityLookup (s : String) : String :=
  match (ai_priority_map ++ user_priority_map).find? (fun p => p.1 == s) with
  | some p => p.2
  | none => s

/-- `standardize_priority`: `None` propagates, otherwise the value is upper-cased
and looked up. -/
def standardize_priority : Option String → Option String
  | none => none
  | some pri => some (priorityLookup (pyUpper pri))

/-- One row of the input table: the six rating cells `calculate_match_rates`
reads. A `none` cell models a Python `None` value. -/
structure Row where
  user_severity : Option String
  ai_severity : Option String
  user_occurrence : Option String
  ai_occurrence : Option String
  user_priority : Option String
  ai_priority : Option String
deriving DecidableEq, Repr

/-- The input DataFrame: the list of column names present in the file, plus the
row data for the six rating columns. -/
structure Table where
  columns : List String
  rows : List Row
deriving DecidableEq, Repr

/-- `required_columns` of `calculate_match_rates`. -/
def required_columns : List String :=
  ["user_severity", "ai_severity",
   "user_occurrence", "ai_occurrence",
   "user_priority", "ai_priority"]

/-- One row of `metrics_df` after the standardized columns and match flags are
added. -/
structure StdRow where
  row : Row
  user_severity_std : Option String
  ai_severity_std : Option String
  user_occurrence_std : Option String
  ai_occurrence_std : Option String
  user_priority_std : Option String
  ai_priority_std : Option String
  severity_match : Bool
  occurrence_match : Bool
  priority_match : Bool
  all_match : Bool
deriving DecidableEq, Repr

/-- Element-wise `==` of two object-dtype pandas Series cells (`vec_compare` in
pandas `ops.pyx`): a null on either side compares unequal, two non-null strings
compare by string equality. -/
def pandasEq (a b : Option String) : Bool :=
  match a, b with
  | some x, some y => x == y
  | _, _ => false

/-- The per-row work of `calculate_match_rates` lines 148-158 and 171: add the
six standardized columns, the three match flags, and the `all_match` flag
(`severity_match & occurrence_match & priority_match`). -/
def stdRow (r : Row) : StdRow :=
  let us := standardize_severity r.user_severity
  let as := standardize_severity r.ai_severity
  let uo := standardize_occurrence r.user_occurrence
  let ao := standardize_occurrence r.ai_occurrence
  let up := standardize_priority r.user_priority
  let ap := standardize_priority r.ai_priority
  let sm := pandasEq us as
  let om := pandasEq uo ao
  let pm := pandasEq up ap
  { row := r
    user_severity_std := us, ai_severity_std := as
    user_occurrence_std := uo, ai_occurrence_std := ao
    user_priority_std := up, ai_priority_std := ap
    severity_match := sm, occurrence_match := om, priority_match := pm
    all_match := sm && om && pm }

/-- `notna` over both standardized severity cells of one row (line 161). -/
def validSeverityRow (m : StdRow) : Bool :=
  m.user_severity_std.isSome && m.ai_severity_std.isSome

/-- `notna` over both standardized occurrence cells of one row (line 162). -/
def validOccurrenceRow (m : StdRow) : Bool :=
  m.user_occurrence_std.isSome && m.ai_occurrence_std.isSome

/-- `notna` over both standardized priority cells of one row (line 163). -/
def validPriorityRow (m : StdRow) : Bool :=
  m.user_priority_std.isSome && m.ai_priority_std.isSome

/-- `notna` over all six standardized cells of one row (lines 172-174): the
predicate under the composite denominator `valid_all`. -/
def validAllRow (m : StdRow) : Bool :=
  m.user_severity_std.isSome && m.ai_severity_std.isSome &&
  m.user_occurrence_std.isSome && m.ai_occurrence_std.isSome &&
  m.user_priority_std.isSome && m.ai_priority_std.isSome

/-- Local `severity_match_rate` of `calculate_match_rates` (line 166), prior to
the `round(_, 2)` applied when the results dict is built. -/
def severity_match_rate (ms : List StdRow) : ℚ :=
  let valid := ms.countP validSeverityRow
  if valid > 0 then (ms.countP (fun m => m.severity_match) : ℚ) / (valid : ℚ) * 100 else 0

/-- Local `occurrence_match_rate` of `calculate_match_rates` (line 167). -/
def occurrence_match_rate (ms : List StdRow) : ℚ :=
  let valid := ms.countP validOccurrenceRow
  if valid > 0 then (ms.countP (fun m => m.occurrence_match) : ℚ) / (valid : ℚ) * 100 else 0

/-- Local `priority_match_rate` of `calculate_match_rates` (line 168). -/
def priority_match_rate (ms : List StdRow) : ℚ :=
  let valid := ms.countP validPriorityRow
  if valid > 0 then (ms.countP (fun m => m.priority_match) : ℚ) / (valid : ℚ) * 100 else 0

/-- Local `overall_match_rate` of `calculate_match_rates` (line 175): numerator
counts `all_match` rows, denominator is `valid_all`. -/
def overall_match_rate (ms : List StdRow) : ℚ :=
  let valid := ms.countP validAllRow
  if valid > 0 then (ms.countP (fun m => m.all_match) : ℚ) / (valid : ℚ) * 100 else 0

/-- Python `round(x)` to an integer: round half to even, over exact rationals. -/
def roundHalfEven (q : ℚ) : ℤ :=
  let f := ⌊q⌋
  if q - (f : ℚ) < 1 / 2 then f
  else if 1 / 2 < q - (f : ℚ) then f + 1
  else if f % 2 = 0 then f else f + 1

/-- Python `round(x, 2)` (banker's rounding to two decimal places), modelled
over exact rationals rather than binary floats. -/
def round2 (q : ℚ) : ℚ := (roundHalfEven (q * 100) : ℚ) / 100

/-- The results dict built by `calculate_match_rates` (lines 178-187). -/
structure Results where
  severityMatchRate : ℚ
  occurrenceMatchRate : ℚ
  priorityMatchRate : ℚ
  overallMatchRate : ℚ
  totalIssuesAnalyzed : Nat
  validSeverityComparisons : Nat
  validOccurrenceComparisons : Nat
  validPriorityComparisons : Nat
deriving DecidableEq, Repr

/-- `calculate_match_rates`: if any required column is missing the function
returns `None`; otherwise it standardizes every row, computes the match flags
and counts, and returns the results dict together with `metrics_df`. -/
def calculate_match_rates (df : Table) : Option (Results × List StdRow) :=
  let missing := required_columns.filter (fun c => !(df.columns.contains c))
  if missing.isEmpty then
    let metrics := df.rows.map stdRow
    some
      ({ severityMatchRate := round2 (severity_match_rate metrics)
         occurrenceMatchRate := round2 (occurrence_match_rate metrics)
         priorityMatchRate := round2 (priority_match_rate metrics)
         overallMatchRate := round2 (overall_match_rate metrics)
         totalIssuesAnalyzed := df.rows.length
         validSeverityComparisons := metrics.countP validSeverityRow
         validOccurrenceComparisons := metrics.countP validOccurrenceRow
         validPriorityComparisons := metrics.countP validPriorityRow },
       metrics)
  else none

/-- One measurement accepted by `create_comparison_visualization`: a label and
the three match-rate percentages, after the float conversion succeeded (a
measurement whose values fail conversion is dropped before this point). -/
structure Measurement where
  label : String
  severity : ℚ
  occurrence : ℚ
  priority : ℚ
deriving DecidableEq, Repr

/-- `df_data` of `create_comparison_visualization` (lines 24-59): three
`(Measurement, Metric, Match Rate)` records per accepted measurement, in order. -/
def buildChartData : List Measurement → List (String × String × ℚ)
  | [] => []
  | d :: ds =>
      (d.label, "Severity", d.severity) ::
      (d.label, "Occurrence", d.occurrence) ::
      (d.label, "Priority", d.priority) :: buildChartData ds

/-- pandas `Series.mean()`: sum divided by length (the empty case, `NaN` in
pandas, is never reached on the non-empty inputs the claims quantify over). -/
def seriesMean (vs : List ℚ) : ℚ := vs.sum / (vs.length : ℚ)

/-- `df[df[Metric] == metric][Match Rate (%)]` (line 80): the rate column of the
long-format chart data restricted to one metric. -/
def metricValues (ds : List Measurement) (metric : String) : List ℚ :=
  (buildChartData ds).filterMap (fun t => if t.2.1 == metric then some t.2.2 else none)

/-- `metric_avg` of line 80: the value of the dashed average reference line
drawn for `metric`. -/
def metricAvg (ds : List Measurement) (metric : String) : ℚ :=
  seriesMean (metricValues ds metric)

/-- One column of `pivot_df = df.pivot(index=Measurement, columns=Metric)`
(line 124): with distinct measurement labels (pivot raises otherwise), the
`metric` column holds that attribute's rate of each measurement in order. -/
def pivotColumn (ds : List Measurement) (metric : String) : List ℚ :=
  if metric == "Severity" then ds.map (fun d => d.severity)
  else if metric == "Occurrence" then ds.map (fun d => d.occurrence)
  else if metric == "Priority" then ds.map (fun d => d.priority)
  else []

/-- `metric_averages = pivot_df.mean(axis=0)` (line 127), the value placed in
the appended `AVERAGE` row (line 130) for `metric`. -/
def averageRowValue (ds : List Measurement) (metric : String) : ℚ :=
  seriesMean (pivotColumn ds metric)

example : standardize_occurrence (some "ALWAYS") = some "CERTAIN" := by decide
example : standardize_occurrence (some "75%") = some "FREQUENT" := by decide
example : standardize_occurrence (some "10%") = some "FREQUENT" := by decide
example : standardize_occurrence (some "60%") = some "VERY FREQUENT" := by decide
example : standardize_occurrence (some "90%") = some "CERTAIN" := by decide
example : standardize_severity (some "CRITICAL (A)") = some "A - SHOWSTOPPER" := by decide
example : standardize_severity (some "URGENT (A)x") = some "URGENT (A)X" := by decide
example : standardize_severity (some "whatever-unmapped") = some "WHATEVER-UNMAPPED" := by decide
example : standardize_priority (some "URGENT") = some "CRITICAL" := by decide
example : standardize_priority (some "BLOCKER ") = some "BLOCKER " := by decide

example :
    (calculate_match_rates ⟨required_columns, []⟩).map
      (fun x => (x.1.totalIssuesAnalyzed, x.1.validSeverityComparisons, x.2)) =
    some (0, 0, []) := by decide

example :
    calculate_match_rates ⟨["user_severity"], []⟩ = none := by decide

example :
    (calculate_match_rates
        ⟨required_columns,
         [⟨some "CRITICAL (A)", some "A - SHOWSTOPPER", some "ALWAYS", some "CERTAIN",
           some "URGENT", some "CRITICAL"⟩]⟩).map
      (fun x => (x.1.totalIssuesAnalyzed, x.2.map (fun m => m.all_match))) =
    some (1, [true]) := by decide

/-- All six raw rating cells of a row are non-null. -/
def allSixSome (x : Row) : Bool :=
  x.user_severity.isSome && x.ai_severity.isSome &&
  x.user_occurrence.isSome && x.ai_occurrence.isSome &&
  x.user_priority.isSome && x.ai_priority.isSome

theorem pandasEq_iff (a b : Option String) :
    pandasEq a b = true ↔ ∃ v, a = some v ∧ b = some v := by
  cases a <;> cases b <;> simp [pandasEq]
  exact eq_comm

theorem isSome_standardize_severity (o : Option String) :
    (standardize_severity o).isSome = o.isSome := by
  cases o <;> rfl

theorem isSome_standardize_occurrence (o : Option String) :
    (standardize_occurrence o).isSome = o.isSome := by
  cases o <;> rfl

theorem isSome_standardize_priority (o : Option String) :
    (standardize_priority o).isSome = o.isSome := by
  cases o <;> rfl

theorem pandasEq_isSome (a b : Option String) (h : pandasEq a b = true) :
    a.isSome = true ∧ b.isSome = true := by
  rcases (pandasEq_iff a b).mp h with ⟨v, hv1, hv2⟩
  simp [hv1, hv2]

theorem validAllRow_stdRow (x : Row) : validAllRow (stdRow x) = allSixSome x := by
  simp [validAllRow, stdRow, allSixSome,
    isSome_standardize_severity, isSome_standardize_occurrence, isSome_standardize_priority]

/-- C1: a row's per-attribute match flag is true iff both canonical values are
non-null and equal (pandas compares nulls unequal); the composite `all_match`
flag is the conjunction of the three flags, which forces all six canonical
values non-null; and the composite denominator `valid_all` counts exactly the
rows whose six cells (hence six canonical values) are all non-null. -/
theorem C1_match_flags (r : Row) (rows : List Row) :
    ((stdRow r).severity_match = true ↔
      ∃ v, (stdRow r).user_severity_std = some v ∧ (stdRow r).ai_severity_std = some v) ∧
    ((stdRow r).occurrence_match = true ↔
      ∃ v, (stdRow r).user_occurrence_std = some v ∧ (stdRow r).ai_occurrence_std = some v) ∧
    ((stdRow r).priority_match = true ↔
      ∃ v, (stdRow r).user_priority_std = some v ∧ (stdRow r).ai_priority_std = some v) ∧
    ((stdRow r).all_match = true ↔
      (validAllRow (stdRow r) = true ∧ (stdRow r).severity_match = true ∧
        (stdRow r).occurrence_match = true ∧ (stdRow r).priority_match = true)) ∧
    ((rows.map stdRow).countP validAllRow = rows.countP allSixSome) := by
  refine ⟨?_, ?_, ?_, ?_, ?_⟩
  · simpa [stdRow] using pandasEq_iff (standardize_severity r.user_severity)
      (standardize_severity r.ai_severity)
  · simpa [stdRow] using pandasEq_iff (standardize_occurrence r.user_occurrence)
      (standardize_occurrence r.ai_occurrence)
  · simpa [stdRow] using pandasEq_iff (standardize_priority r.user_priority)
      (standardize_priority r.ai_priority)
  · constructor
    · intro h
      obtain ⟨⟨hs, ho⟩, hp⟩ :
          (pandasEq (standardize_severity r.user_severity)
              (standardize_severity r.ai_severity) = true ∧
            pandasEq (standardize_occurrence r.user_occurrence)
              (standardize_occurrence r.ai_occurrence) = true) ∧
          pandasEq (standardize_priority r.user_priority)
            (standardize_priority r.ai_priority) = true := by
        simpa [stdRow] using h
      have hs2 := pandasEq_isSome _ _ hs
      have ho2 := pandasEq_isSome _ _ ho
      have hp2 := pandasEq_isSome _ _ hp
      refine ⟨?_, by simpa [stdRow] using hs, by simpa [stdRow] using ho,
        by simpa [stdRow] using hp⟩
      simp [validAllRow, stdRow, hs2.1, hs2.2, ho2.1, ho2.2, hp2.1, hp2.2]
    · rintro ⟨-, hs, ho, hp⟩
      simp only [stdRow] at hs ho hp ⊢
      simp_all
  · rw [List.countP_map]
    simp only [Function.comp_def, validAllRow_stdRow]

/-- C2: if any of the six required rating columns is missing from the input
table, `calculate_match_rates` signals the error by returning `none` — no result
record and no partial result. -/
theorem C2_missing_columns (df : Table) (c : String)
    (hc : c ∈ required_columns) (hnc : c ∉ df.columns) :
    calculate_match_rates df = none := by
  have hmem : c ∈ required_columns.filter (fun c => !(df.columns.contains c)) := by
    refine List.mem_filter.mpr ⟨hc, ?_⟩
    simpa using hnc
  have hne : required_columns.filter (fun c => !(df.columns.contains c)) ≠ [] :=
    List.ne_nil_of_mem hmem
  have hempty : (required_columns.filter (fun c => !(df.columns.contains c))).isEmpty = false := by
    simpa [List.isEmpty_iff] using hne
  simp [calculate_match_rates, hempty]
  exact ⟨c, hc, hnc⟩

/-- C2 witness: a table with no columns at all is missing `user_severity`, and
`calculate_match_rates` returns `none` on it. -/
theorem C2_missing_columns_witness :
    "user_severity" ∈ required_columns ∧
    "user_severity" ∉ (Table.mk [] []).columns ∧
    calculate_match_rates (Table.mk [] []) = none :=
  ⟨by decide, by decide, C2_missing_columns (Table.mk [] []) "user_severity" (by decide) (by decide)⟩

/-- C3: occurrence normalization consults the exact-match tables before the
numeric percentage fallback — `ALWAYS` and `75%` hit the synonym table (so `75%`
becomes FREQUENT, not the VERY FREQUENT the numeric bucket would give), while
`10%`, `60%` and `90%` are absent from the tables and are bucketed numerically. -/
theorem C3_occurrence_tables_before_fallback :
    standardize_occurrence (some "ALWAYS") = some "CERTAIN" ∧
    standardize_occurrence (some "75%") = some "FREQUENT" ∧
    standardize_occurrence (some "10%") = some "FREQUENT" ∧
    standardize_occurrence (some "60%") = some "VERY FREQUENT" ∧
    standardize_occurrence (some "90%") = some "CERTAIN" := by
  refine ⟨by decide, by decide, by decide, by decide, by decide⟩

/-- C4 counterexample: the claim says `URGENT (A)x` normalizes to the
SHOWSTOPPER canonical label, but no severity pattern occurs in `URGENT (A)X`,
so `standardize_severity` returns the verbatim upper-cased string instead. -/
theorem C4_urgent_ax_counterexample :
    standardize_severity (some "URGENT (A)x") = some "URGENT (A)X" ∧
    some "URGENT (A)X" ≠ (some "A - SHOWSTOPPER" : Option String) := by
  refine ⟨by decide, by decide⟩

/-- C4 amended: `CRITICAL (A)` and `A - SHOWSTOPPER` normalize to the
SHOWSTOPPER canonical label `A - SHOWSTOPPER`; `URGENT (A)x`, which matches no
severity pattern, and the unmapped `whatever-unmapped` both come back as the
verbatim upper-cased string. -/
theorem C4_severity_mappings :
    standardize_severity (some "CRITICAL (A)") = some "A - SHOWSTOPPER" ∧
    standardize_severity (some "A - SHOWSTOPPER") = some "A - SHOWSTOPPER" ∧
    standardize_severity (some "URGENT (A)x") = some "URGENT (A)X" ∧
    standardize_severity (some "whatever-unmapped") = some "WHATEVER-UNMAPPED" := by
  refine ⟨by decide, by decide, by decide, by decide⟩

/-- C5 counterexample: the claim says values are trimmed before matching, so
`BLOCKER` with a trailing space would normalize like `BLOCKER`; in fact no
normalizer strips whitespace, and the two inputs normalize differently. -/
theorem C5_no_trim_counterexample :
    standardize_priority (some "BLOCKER ") = some "BLOCKER " ∧
    standardize_priority (some "BLOCKER") = some "BLOCKER" ∧
    (some "BLOCKER " : Option String) ≠ some "BLOCKER" := by
  refine ⟨by decide, by decide, by decide⟩

/-- C5 amended: every normalizer upper-cases (but does not trim) the raw value
before any table matching, so two raw values differing only in letter case
normalize identically; surrounding whitespace, however, is preserved. -/
theorem C5_uppercase_before_matching (s t : String) (h : pyUpper s = pyUpper t) :
    standardize_severity (some s) = standardize_severity (some t) ∧
    standardize_occurrence (some s) = standardize_occurrence (some t) ∧
    standardize_priority (some s) = standardize_priority (some t) := by
  simp [standardize_severity, standardize_occurrence, standardize_priority, h]

/-- C5 witness: `blocker` and `BLOCKER` differ only in case and normalize to
the same priority label. -/
theorem C5_uppercase_before_matching_witness :
    pyUpper "blocker" = pyUpper "BLOCKER" ∧
    standardize_priority (some "blocker") = standardize_priority (some "BLOCKER") :=
  ⟨by decide, (C5_uppercase_before_matching "blocker" "BLOCKER" (by decide)).2.2⟩

theorem validSeverityRow_stdRow (x : Row) :
    validSeverityRow (stdRow x) = (x.user_severity.isSome && x.ai_severity.isSome) := by
  simp [validSeverityRow, stdRow, isSome_standardize_severity]

theorem validOccurrenceRow_stdRow (x : Row) :
    validOccurrenceRow (stdRow x) = (x.user_occurrence.isSome && x.ai_occurrence.isSome) := by
  simp [validOccurrenceRow, stdRow, isSome_standardize_occurrence]

theorem validPriorityRow_stdRow (x : Row) :
    validPriorityRow (stdRow x) = (x.user_priority.isSome && x.ai_priority.isSome) := by
  simp [validPriorityRow, stdRow, isSome_standardize_priority]

/-- C6: on a table whose rows all have six non-null cells except for one row
with a null automated severity (its other five cells non-null),
`calculate_match_rates` excludes that row from the severity valid-comparison
count and from the composite (all-six-non-null) denominator, leaves the
occurrence and priority valid-comparison counts at the full row count, and
still counts the row in the total. -/
theorem C6_null_ai_severity (df : Table) (l₁ l₂ : List Row) (r : Row)
    (hcols : required_columns.all (fun c => df.columns.contains c) = true)
    (hrows : df.rows = l₁ ++ r :: l₂)
    (hnull : r.ai_severity = none)
    (hfive : r.user_severity.isSome = true ∧ r.user_occurrence.isSome = true ∧
      r.ai_occurrence.isSome = true ∧ r.user_priority.isSome = true ∧
      r.ai_priority.isSome = true)
    (hrest : ∀ x ∈ l₁ ++ l₂, allSixSome x = true) :
    (calculate_match_rates df).map (fun x => x.1.validSeverityComparisons) =
      some (l₁.length + l₂.length) ∧
    (calculate_match_rates df).map (fun x => x.1.validOccurrenceComparisons) =
      some (l₁.length + 1 + l₂.length) ∧
    (calculate_match_rates df).map (fun x => x.1.validPriorityComparisons) =
      some (l₁.length + 1 + l₂.length) ∧
    (calculate_match_rates df).map (fun x => x.1.totalIssuesAnalyzed) =
      some (l₁.length + 1 + l₂.length) ∧
    (calculate_match_rates df).map (fun x => x.2.countP validAllRow) =
      some (l₁.length + l₂.length) := by
  have hempty : (required_columns.filter (fun c => !(df.columns.contains c))).isEmpty = true := by
    rw [List.isEmpty_iff, List.filter_eq_nil_iff]
    intro c hc
    have := List.all_eq_true.mp hcols c hc
    simpa using this
  have h₁ : ∀ x ∈ l₁, allSixSome x = true :=
    fun x hx => hrest x (List.mem_append_left _ hx)
  have h₂ : ∀ x ∈ l₂, allSixSome x = true :=
    fun x hx => hrest x (List.mem_append_right _ hx)
  have hsix : ∀ x : Row, allSixSome x = true →
      (x.user_severity.isSome && x.ai_severity.isSome) = true ∧
      (x.user_occurrence.isSome && x.ai_occurrence.isSome) = true ∧
      (x.user_priority.isSome && x.ai_priority.isSome) = true := by
    intro x hx
    simp only [allSixSome, Bool.and_eq_true] at hx
    simp [hx.1.1.1.1.1, hx.1.1.1.1.2, hx.1.1.1.2, hx.1.1.2, hx.1.2, hx.2]
  have count_sev : ∀ l : List Row, (∀ x ∈ l, allSixSome x = true) →
      l.countP (fun x => x.user_severity.isSome && x.ai_severity.isSome) = l.length :=
    fun l hl => List.countP_eq_length.mpr (fun x hx => (hsix x (hl x hx)).1)
  have count_occ : ∀ l : List Row, (∀ x ∈ l, allSixSome x = true) →
      l.countP (fun x => x.user_occurrence.isSome && x.ai_occurrence.isSome) = l.length :=
    fun l hl => List.countP_eq_length.mpr (fun x hx => (hsix x (hl x hx)).2.1)
  have count_pri : ∀ l : List Row, (∀ x ∈ l, allSixSome x = true) →
      l.countP (fun x => x.user_priority.isSome && x.ai_priority.isSome) = l.length :=
    fun l hl => List.countP_eq_length.mpr (fun x hx => (hsix x (hl x hx)).2.2)
  have count_all : ∀ l : List Row, (∀ x ∈ l, allSixSome x = true) →
      l.countP allSixSome = l.length :=
    fun l hl => List.countP_eq_length.mpr hl
  simp only [calculate_match_rates, hempty, if_pos, Option.map_some', hrows]
  simp only [List.countP_map, Function.comp_def, validSeverityRow_stdRow,
    validOccurrenceRow_stdRow, validPriorityRow_stdRow, validAllRow_stdRow,
    List.countP_append, List.countP_cons, List.length_append, List.length_cons]
  rw [count_sev l₁ h₁, count_sev l₂ h₂, count_occ l₁ h₁, count_occ l₂ h₂,
    count_pri l₁ h₁, count_pri l₂ h₂, count_all l₁ h₁, count_all l₂ h₂]
  simp [hnull, hfive.1, hfive.2.1, hfive.2.2.1, hfive.2.2.2.1, hfive.2.2.2.2, allSixSome]
  omega

/-- C6 witness: a two-row table — one fully populated row and one row whose
`ai_severity` is null — has severity valid count 1, occurrence and priority
valid counts 2, total 2, and composite denominator 1. -/
theorem C6_null_ai_severity_witness :
    (calculate_match_rates
        (Table.mk required_columns
          [Row.mk (some "A - SHOWSTOPPER") (some "A - SHOWSTOPPER") (some "CERTAIN")
             (some "CERTAIN") (some "MAJOR") (some "MAJOR"),
           Row.mk (some "A - SHOWSTOPPER") none (some "CERTAIN")
             (some "CERTAIN") (some "MAJOR") (some "MAJOR")])).map
      (fun x => x.1.validSeverityComparisons) = some 1 := by
  have h := C6_null_ai_severity
    (Table.mk required_columns
      [Row.mk (some "A - SHOWSTOPPER") (some "A - SHOWSTOPPER") (some "CERTAIN")
         (some "CERTAIN") (some "MAJOR") (some "MAJOR"),
       Row.mk (some "A - SHOWSTOPPER") none (some "CERTAIN")
         (some "CERTAIN") (some "MAJOR") (some "MAJOR")])
    [Row.mk (some "A - SHOWSTOPPER") (some "A - SHOWSTOPPER") (some "CERTAIN")
       (some "CERTAIN") (some "MAJOR") (some "MAJOR")]
    []
    (Row.mk (some "A - SHOWSTOPPER") none (some "CERTAIN")
       (some "CERTAIN") (some "MAJOR") (some "MAJOR"))
    (by decide) (by decide) (by decide)
    ⟨by decide, by decide, by decide, by decide, by decide⟩
    (by decide)
  exact h.1

/-- C7: each per-attribute match rate, and the overall (composite) rate, equals
matches divided by valid comparisons times 100 when the valid-comparison count
is positive, and is exactly 0 — not NaN, not an error — when that count is 0. -/
theorem C7_rate_zero_convention (ms : List StdRow) :
    (ms.countP validSeverityRow = 0 → severity_match_rate ms = 0) ∧
    (0 < ms.countP validSeverityRow →
      severity_match_rate ms =
        (ms.countP (fun m => m.severity_match) : ℚ) / (ms.countP validSeverityRow : ℚ) * 100) ∧
    (ms.countP validOccurrenceRow = 0 → occurrence_match_rate ms = 0) ∧
    (0 < ms.countP validOccurrenceRow →
      occurrence_match_rate ms =
        (ms.countP (fun m => m.occurrence_match) : ℚ) / (ms.countP validOccurrenceRow : ℚ) * 100) ∧
    (ms.countP validPriorityRow = 0 → priority_match_rate ms = 0) ∧
    (0 < ms.countP validPriorityRow →
      priority_match_rate ms =
        (ms.countP (fun m => m.priority_match) : ℚ) / (ms.countP validPriorityRow : ℚ) * 100) ∧
    (ms.countP validAllRow = 0 → overall_match_rate ms = 0) ∧
    (0 < ms.countP validAllRow →
      overall_match_rate ms =
        (ms.countP (fun m => m.all_match) : ℚ) / (ms.countP validAllRow : ℚ) * 100) := by
  refine ⟨fun h => ?_, fun h => ?_, fun h => ?_, fun h => ?_, fun h => ?_, fun h => ?_,
    fun h => ?_, fun h => ?_⟩ <;>
    simp [severity_match_rate, occurrence_match_rate, priority_match_rate,
      overall_match_rate, h]

/-- C7 witness: the empty metrics list has zero valid comparisons and rate 0;
a singleton all-matching metrics list has a positive valid count and its
severity rate is given by the matches-over-valid formula. -/
theorem C7_rate_zero_convention_witness :
    ([] : List StdRow).countP validSeverityRow = 0 ∧
    severity_match_rate [] = 0 ∧
    0 < [stdRow (Row.mk (some "A - SHOWSTOPPER") (some "A - SHOWSTOPPER") (some "CERTAIN")
          (some "CERTAIN") (some "MAJOR") (some "MAJOR"))].countP validSeverityRow ∧
    severity_match_rate
        [stdRow (Row.mk (some "A - SHOWSTOPPER") (some "A - SHOWSTOPPER") (some "CERTAIN")
          (some "CERTAIN") (some "MAJOR") (some "MAJOR"))] =
      (([stdRow (Row.mk (some "A - SHOWSTOPPER") (some "A - SHOWSTOPPER") (some "CERTAIN")
          (some "CERTAIN") (some "MAJOR") (some "MAJOR"))].countP
            (fun m => m.severity_match) : ℕ) : ℚ) /
        (([stdRow (Row.mk (some "A - SHOWSTOPPER") (some "A - SHOWSTOPPER") (some "CERTAIN")
          (some "CERTAIN") (some "MAJOR") (some "MAJOR"))].countP validSeverityRow : ℕ) : ℚ) *
        100 :=
  ⟨by decide, (C7_rate_zero_convention []).1 (by decide), by decide,
    (C7_rate_zero_convention
      [stdRow (Row.mk (some "A - SHOWSTOPPER") (some "A - SHOWSTOPPER") (some "CERTAIN")
        (some "CERTAIN") (some "MAJOR") (some "MAJOR"))]).2.1 (by decide)⟩

/-- C8: the three normalization functions are total — `None` maps to `None` and
every string input produces a (non-null) string output — and an occurrence value
containing `%` whose numeric portion cannot be parsed falls through to the
verbatim upper-cased string rather than raising. -/
theorem C8_normalizers_total (s : String) :
    standardize_severity none = none ∧
    standardize_occurrence none = none ∧
    standardize_priority none = none ∧
    (standardize_severity (some s)).isSome = true ∧
    (standardize_occurrence (some s)).isSome = true ∧
    (standardize_priority (some s)).isSome = true ∧
    ((ai_occurrence_map ++ user_to_ai_map).find? (fun p => pyUpper s == p.1) = none →
      containsSub "%" (pyUpper s) = true →
      pyFloat (pyStrip (removePercent (pyUpper s))) = none →
      standardize_occurrence (some s) = some (pyUpper s)) := by
  refine ⟨rfl, rfl, rfl, rfl, rfl, rfl, fun hfind hpct hfloat => ?_⟩
  simp [standardize_occurrence, occurrenceLookup, hfind, hpct, hfloat]

/-- C8 witness: `N/A%` contains `%`, its numeric portion `N/A` is unparseable,
and `standardize_occurrence` returns it verbatim. -/
theorem C8_normalizers_total_witness :
    (ai_occurrence_map ++ user_to_ai_map).find? (fun p => pyUpper "N/A%" == p.1) = none ∧
    containsSub "%" (pyUpper "N/A%") = true ∧
    pyFloat (pyStrip (removePercent (pyUpper "N/A%"))) = none ∧
    standardize_occurrence (some "N/A%") = some "N/A%" :=
  ⟨by decide, by decide, by decide,
    (C8_normalizers_total "N/A%").2.2.2.2.2.2 (by decide) (by decide) (by decide)⟩

theorem metricValues_severity (ds : List Measurement) :
    metricValues ds "Severity" = ds.map (fun d => d.severity) := by
  induction ds with
  | nil => rfl
  | cons d ds ih =>
      simp only [metricValues, buildChartData, List.filterMap_cons] at ih ⊢
      simp only [ih]
      rfl

theorem metricValues_occurrence (ds : List Measurement) :
    metricValues ds "Occurrence" = ds.map (fun d => d.occurrence) := by
  induction ds with
  | nil => rfl
  | cons d ds ih =>
      simp only [metricValues, buildChartData, List.filterMap_cons] at ih ⊢
      simp only [ih]
      rfl

theorem metricValues_priority (ds : List Measurement) :
    metricValues ds "Priority" = ds.map (fun d => d.priority) := by
  induction ds with
  | nil => rfl
  | cons d ds ih =>
      simp only [metricValues, buildChartData, List.filterMap_cons] at ih ⊢
      simp only [ih]
      rfl

/-- C9: for a non-empty list of accepted measurements, the dashed reference
line drawn for each attribute and the value in the appended `AVERAGE` row both
equal the arithmetic mean (sum divided by count) of that attribute's match
rates across the measurements. -/
theorem C9_average_is_mean (ds : List Measurement) (h : ds ≠ []) :
    (metricAvg ds "Severity" = (ds.map (fun d => d.severity)).sum / (ds.length : ℚ) ∧
      averageRowValue ds "Severity" = (ds.map (fun d => d.severity)).sum / (ds.length : ℚ)) ∧
    (metricAvg ds "Occurrence" = (ds.map (fun d => d.occurrence)).sum / (ds.length : ℚ) ∧
      averageRowValue ds "Occurrence" = (ds.map (fun d => d.occurrence)).sum / (ds.length : ℚ)) ∧
    (metricAvg ds "Priority" = (ds.map (fun d => d.priority)).sum / (ds.length : ℚ) ∧
      averageRowValue ds "Priority" = (ds.map (fun d => d.priority)).sum / (ds.length : ℚ)) := by
  refine ⟨⟨?_, ?_⟩, ⟨?_, ?_⟩, ⟨?_, ?_⟩⟩ <;>
    simp [metricAvg, averageRowValue, seriesMean, pivotColumn,
      metricValues_severity, metricValues_occurrence, metricValues_priority]

/-- C9 witness: with two measurements whose severity rates are 80 and 90, the
severity reference line and the severity entry of the `AVERAGE` row are 85. -/
theorem C9_average_is_mean_witness :
    (Measurement.mk "Measurement 1" 80 70 60 :: [Measurement.mk "Measurement 2" 90 50 40]) ≠ [] ∧
    metricAvg [Measurement.mk "Measurement 1" 80 70 60,
      Measurement.mk "Measurement 2" 90 50 40] "Severity" = 85 ∧
    averageRowValue [Measurement.mk "Measurement 1" 80 70 60,
      Measurement.mk "Measurement 2" 90 50 40] "Severity" = 85 := by
  have h := C9_average_is_mean
    [Measurement.mk "Measurement 1" 80 70 60, Measurement.mk "Measurement 2" 90 50 40]
    (by simp)
  refine ⟨by simp, ?_, ?_⟩
  · rw [h.1.1]
    norm_num
  · rw [h.1.2]
    norm_num

theorem char_ofNat_toNat_of_upper (m : Nat) (h1 : 65 ≤ m) (h2 : m ≤ 90) :
    (Char.ofNat m).toNat = m := by
  interval_cases m <;> decide

theorem char_toUpper_idem (c : Char) : c.toUpper.toUpper = c.toUpper := by
  simp only [Char.toUpper]
  by_cases h : c.toNat ≥ 97 ∧ c.toNat ≤ 122
  · rw [if_pos h]
    have hfix : (Char.ofNat (c.toNat - 32)).toNat = c.toNat - 32 :=
      char_ofNat_toNat_of_upper _ (by omega) (by omega)
    have hlt : ¬((Char.ofNat (c.toNat - 32)).toNat ≥ 97 ∧
        (Char.ofNat (c.toNat - 32)).toNat ≤ 122) := by
      rw [hfix]
      omega
    rw [if_neg hlt]
  · rw [if_neg h, if_neg h]

theorem pyUpper_idem (s : String) : pyUpper (pyUpper s) = pyUpper s := by
  simp [pyUpper, List.map_map, Function.comp_def, char_toUpper_idem]

theorem severityLookup_fix (s : String) :
    severityLookup (pyUpper (severityLookup (pyUpper s))) = severityLookup (pyUpper s) := by
  cases hfind : (ai_severity_map ++ user_severity_map).find?
      (fun p => containsSub p.1 (pyUpper s)) with
  | some p =>
      have hval : severityLookup (pyUpper s) = p.2 := by
        simp [severityLookup, hfind]
      rw [hval]
      have hp := List.mem_of_find?_eq_some hfind
      simp only [ai_severity_map, user_severity_map, List.cons_append, List.nil_append,
        List.mem_cons, List.not_mem_nil, or_false] at hp
      rcases hp with rfl | rfl | rfl | rfl | rfl | rfl | rfl | rfl <;> decide
  | none =>
      have hval : severityLookup (pyUpper s) = pyUpper s := by
        simp [severityLookup, hfind]
      rw [hval, pyUpper_idem]
      exact hval

theorem occurrenceLookup_fix (s : String) :
    occurrenceLookup (pyUpper (occurrenceLookup (pyUpper s))) = occurrenceLookup (pyUpper s) := by
  cases hfind : (ai_occurrence_map ++ user_to_ai_map).find?
      (fun p => pyUpper s == p.1) with
  | some p =>
      have hval : occurrenceLookup (pyUpper s) = p.2 := by
        simp [occurrenceLookup, hfind]
      rw [hval]
      have hp := List.mem_of_find?_eq_some hfind
      simp only [ai_occurrence_map, user_to_ai_map, List.cons_append, List.nil_append,
        List.mem_cons, List.not_mem_nil, or_false] at hp
      rcases hp with rfl | rfl | rfl | rfl | rfl | rfl | rfl | rfl | rfl | rfl | rfl | rfl |
        rfl | rfl | rfl <;> decide
  | none =>
      by_cases hpct : containsSub "%" (pyUpper s) = true
      · cases hq : pyFloat (pyStrip (removePercent (pyUpper s))) with
        | some q =>
            have hval : occurrenceLookup (pyUpper s) =
                (if q ≤ 25 then "FREQUENT" else if q ≤ 75 then "VERY FREQUENT" else "CERTAIN") := by
              simp [occurrenceLookup, hfind, hpct, hq]
            rw [hval]
            by_cases h25 : q ≤ 25
            · rw [if_pos h25]
              decide
            · rw [if_neg h25]
              by_cases h75 : q ≤ 75
              · rw [if_pos h75]
                decide
              · rw [if_neg h75]
                decide
        | none =>
            have hval : occurrenceLookup (pyUpper s) = pyUpper s := by
              simp [occurrenceLookup, hfind, hpct, hq]
            rw [hval, pyUpper_idem]
            exact hval
      · have hval : occurrenceLookup (pyUpper s) = pyUpper s := by
          simp [occurrenceLookup, hfind, hpct]
        rw [hval, pyUpper_idem]
        exact hval

theorem priorityLookup_fix (s : String) :
    priorityLookup (pyUpper (priorityLookup (pyUpper s))) = priorityLookup (pyUpper s) := by
  cases hfind : (ai_priority_map ++ user_priority_map).find?
      (fun p => p.1 == pyUpper s) with
  | some p =>
      have hval : priorityLookup (pyUpper s) = p.2 := by
        simp [priorityLookup, hfind]
      rw [hval]
      have hp := List.mem_of_find?_eq_some hfind
      simp only [ai_priority_map, user_priority_map, List.cons_append, List.nil_append,
        List.mem_cons, List.not_mem_nil, or_false] at hp
      rcases hp with rfl | rfl | rfl | rfl | rfl | rfl | rfl | rfl | rfl <;> decide
  | none =>
      have hval : priorityLookup (pyUpper s) = pyUpper s := by
        simp [priorityLookup, hfind]
      rw [hval, pyUpper_idem]
      exact hval

/-- C10: each of the three normalization functions is idempotent — applying it
to its own output (canonical label or verbatim fallback) returns that output
unchanged. -/
theorem C10_normalizers_idempotent (o : Option String) :
    standardize_severity (standardize_severity o) = standardize_severity o ∧
    standardize_occurrence (standardize_occurrence o) = standardize_occurrence o ∧
    standardize_priority (standardize_priority o) = standardize_priority o := by
  cases o with
  | none => exact ⟨rfl, rfl, rfl⟩
  | some s =>
      refine ⟨?_, ?_, ?_⟩
      · simpa [standardize_severity] using congrArg some (severityLookup_fix s)
      · simpa [standardize_occurrence] using congrArg some (occurrenceLookup_fix s)
      · simpa [standardize_priority] using congrArg some (priorityLookup_fix s)

end MatchRates
